import Mathlib

/-!
# cert-checks: the check entry points `checkArgs` and `executeCheck`

A shallow embedding of `main.go`.  The package-level variable `plugin`, the
wall clock, standard output and the log of performed effects form an explicit
`World` that every operation threads through.  `cert.CollectMetrics` and
`Metrics.Output` live in `internal/cert`; they are taken as parameters
(`cert.Pkg`), so every statement holds for every behaviour of that package.
-/

namespace CertChecks

/-! ## Go runtime values -/

/-- Go `error` value: its dynamic type and the text returned by `Error()`. -/
structure GoError where
  kind : String
  msg : String
deriving DecidableEq, Repr

/-- Value built by `fmt.Errorf` for a format without `%w`. -/
def fmtErrorf (s : String) : GoError :=
  { kind := "*errors.errorString", msg := s }

/-- Reduction of an integer to the signed 64-bit range (two's complement). -/
def wrapInt64 (z : Int) : Int :=
  (z + 2 ^ 63) % 2 ^ 64 - 2 ^ 63

/-- Constant `time.Second`, in nanoseconds. -/
def Second : Int := 1000000000

/-- Conversion `time.Duration(u)` of a `uint64` to the `int64` type `Duration`. -/
def Duration (u : Nat) : Int :=
  wrapInt64 ((u % 2 ^ 64 : Nat) : Int)

/-- Multiplication of two `time.Duration` values (`int64`, wrapping). -/
def durationMul (a b : Int) : Int :=
  wrapInt64 (a * b)

/-- The expression `time.Second * time.Duration(plugin.Timeout)`. -/
def timeoutDuration (timeout : Nat) : Int :=
  durationMul Second (Duration timeout)

/-- Type `context.Context`, restricted to the constructors reachable here.
Instants are nanoseconds on the wall clock. -/
inductive Context where
  | background : Context
  | cancelCtx (parent : Context) : Context
  | timerCtx (parent : Context) (deadline : Int) : Context
deriving DecidableEq, Repr

/-- Method `ctx.Deadline()`: `none` when no deadline is set. -/
def Context.Deadline : Context → Option Int
  | .background => none
  | .cancelCtx p => p.Deadline
  | .timerCtx _ d => some d

/-- Whether `ctx.Done()` is a non-nil channel, i.e. the context can be cancelled. -/
def Context.canCancel : Context → Bool
  | .background => false
  | .cancelCtx _ => true
  | .timerCtx _ _ => true

/-- Function `context.WithDeadline(parent, d)`. -/
def WithDeadline (parent : Context) (d : Int) : Context :=
  match parent.Deadline with
  | some cur => if cur < d then .cancelCtx parent else .timerCtx parent d
  | none => .timerCtx parent d

/-- Function `context.WithTimeout(parent, timeout)`, which is
`WithDeadline(parent, time.Now().Add(timeout))`; `now` is the clock reading. -/
def WithTimeout (now : Int) (parent : Context) (timeout : Int) : Context :=
  WithDeadline parent (now + timeout)

/-! ## sensu-plugin-sdk -/

/-- Exit state `sensu.CheckStateOK`. -/
def CheckStateOK : Int := 0

/-- Exit state `sensu.CheckStateWarning`. -/
def CheckStateWarning : Int := 1

/-- Exit state `sensu.CheckStateCritical`. -/
def CheckStateCritical : Int := 2

/-- Exit state `sensu.CheckStateUnknown`. -/
def CheckStateUnknown : Int := 3

/-- Struct `sensu.PluginConfig`; `Timeout` is a `uint64`. -/
structure PluginConfig where
  Name : String
  Short : String
  Timeout : Nat
  Keyspace : String
deriving DecidableEq, Repr

/-- Struct `corev2.Event`, of which neither entry point reads anything. -/
structure Event where
  Entity : String
  Check : String
deriving DecidableEq, Repr

/-! ## internal/cert -/

/-- Struct `cert.Config`. -/
structure cert.Config where
  ServerName : String
  Influx : Bool
deriving DecidableEq, Repr

/-- The two operations of package `cert` used by `main.go`, for a metrics type
`M`: `CollectMetrics(ctx, path, cfg)` returning its pair `(metrics, err)`, and
the method `metrics.Output()`. -/
structure cert.Pkg (M : Type) where
  CollectMetrics : Context → String → cert.Config → M × Option GoError
  Output : M → String

/-! ## main.go -/

/-- Struct `Config` of `main.go`, embedding `sensu.PluginConfig`. -/
structure Config extends PluginConfig where
  Cert : String
  ServerName : String
  Influx : Bool
deriving DecidableEq, Repr

/-- Initial value of the package variable `plugin`. -/
def plugin : Config :=
  { Name := "cert-checks"
    Short := "Inspects certificate data"
    Timeout := 0
    Keyspace := "sensu.io/plugins/cert-checks/config"
    Cert := ""
    ServerName := ""
    Influx := false }

/-- Observable effects, logged in the order they happen. -/
inductive Effect (M : Type) where
  | collect (ctx : Context) (path : String) (cfg : cert.Config) : Effect M
  | output (m : M) : Effect M
  | write (s : String) : Effect M
  | cancel (ctx : Context) : Effect M

/-- Whether an effect is a call of `cert.CollectMetrics`. -/
def Effect.isCollect {M : Type} : Effect M → Bool
  | .collect _ _ _ => true
  | _ => false

/-- Everything the entry points can read or change: the package variable
`plugin`, the clock, the bytes on standard output and the effect log. -/
structure World (M : Type) where
  plugin : Config
  now : Int
  stdout : String
  trace : List (Effect M)

/-- Append one effect to the log. -/
def World.emit {M : Type} (w : World M) (e : Effect M) : World M :=
  { w with trace := w.trace ++ [e] }

/-- Write a string to standard output (`fmt.Printf` / `fmt.Println` after
formatting). -/
def World.print {M : Type} (w : World M) (s : String) : World M :=
  { w with stdout := w.stdout ++ s, trace := w.trace ++ [Effect.write s] }

/-- Run the deferred `cancel()` calls at function exit. -/
def World.runDeferred {M : Type} (w : World M) (ds : List Context) : World M :=
  { w with trace := w.trace ++ ds.map Effect.cancel }

/-- Message of the error returned by `checkArgs`. -/
def certRequiredMsg : String :=
  "--cert is required. must be URL to certificate. ex: file:///var/run/app/site.crt, https://dev1.sensu.io:8443, tcp://127.0.0.1:443"

/-- Function `checkArgs` of `main.go`: the returned `(int, error)` and the
world afterwards. -/
def checkArgs {M : Type} (w : World M) (_event : Option Event) :
    (Int × Option GoError) × World M :=
  if w.plugin.Cert = "" then
    ((CheckStateCritical, some (fmtErrorf certRequiredMsg)), w)
  else
    ((CheckStateOK, none), w)

/-- The context `executeCheck` builds before the fetch, with the contexts whose
`cancel` is deferred. -/
def fetchContext (timeout : Nat) (now : Int) : Context × List Context :=
  let ctx := Context.background
  if timeout > 0 then
    let ctx1 := WithTimeout now ctx (timeoutDuration timeout)
    (ctx1, [ctx1])
  else
    (ctx, [])

/-- Function `executeCheck` of `main.go`: the returned `(int, error)` and the
world afterwards. -/
def executeCheck {M : Type} (pkg : cert.Pkg M) (w : World M) (_event : Option Event) :
    (Int × Option GoError) × World M :=
  let cd := fetchContext w.plugin.Timeout w.now
  let ctx := cd.1
  let cfg : cert.Config := { ServerName := w.plugin.ServerName, Influx := w.plugin.Influx }
  let w1 := w.emit (Effect.collect ctx w.plugin.Cert cfg)
  let r := pkg.CollectMetrics ctx w.plugin.Cert cfg
  let metrics := r.1
  match r.2 with
  | some err =>
    let w2 := w1.print ("cert-checks failed with error: " ++ err.msg ++ "\n")
    ((CheckStateCritical, none), w2.runDeferred cd.2)
  | none =>
    let w2 := w1.emit (Effect.output metrics)
    let w3 := w2.print (pkg.Output metrics ++ "\n")
    ((CheckStateOK, none), w3.runDeferred cd.2)

/-- Effects a run added to the log: the log afterwards without its first
`n` entries, `n` being the length of the log before. -/
def newEffects {M : Type} (before after : World M) : List (Effect M) :=
  after.trace.drop before.trace.length

/-- Strings written to standard output by a list of effects, in order. -/
def writes {M : Type} : List (Effect M) → List String
  | [] => []
  | Effect.write s :: es => s :: writes es
  | _ :: es => writes es

/-- Result `(metrics, err)` of the call of `cert.CollectMetrics` that
`executeCheck` makes in world `w`. -/
def fetchResult {M : Type} (pkg : cert.Pkg M) (w : World M) : M × Option GoError :=
  pkg.CollectMetrics (fetchContext w.plugin.Timeout w.now).1 w.plugin.Cert
    { ServerName := w.plugin.ServerName, Influx := w.plugin.Influx }

/-! ## Locator schemes, as the specification describes them -/

/-- Modelled from the spec: the scheme of a locator is the text before the
first `://`; a locator without `://` has no scheme (the URL parsing of
`internal/cert` is not part of `main.go`). -/
def schemeChars : List Char → List Char → Option (List Char)
  | acc, ':' :: '/' :: '/' :: _ => some acc.reverse
  | acc, c :: cs => schemeChars (c :: acc) cs
  | _, [] => none

/-- Modelled from the spec: a locator is invalid when it is empty or carries a
scheme other than `file`, `tcp` or `https`; a non-empty locator without a
scheme is a bare `host:port` (the scheme dispatch of `internal/cert` is not part
of `main.go`). -/
def invalidLocator (s : String) : Bool :=
  match s.toList with
  | [] => true
  | cs =>
    match schemeChars [] cs with
    | none => false
    | some sch => !(["file".toList, "tcp".toList, "https".toList].contains sch)

/-! ## Sample worlds and packages -/

/-- World at start-up with the given locator and timeout, clock at `1000`. -/
def sampleWorld (certLoc : String) (timeout : Nat) : World String :=
  { plugin := { plugin with Cert := certLoc, Timeout := timeout }
    now := 1000
    stdout := ""
    trace := [] }

/-- Package whose fetch always fails with the given message. -/
def failingPkg (msg : String) : cert.Pkg String :=
  { CollectMetrics := fun _ _ _ => ("", some { kind := "*net.OpError", msg := msg })
    Output := fun m => m }

/-- Package whose fetch always succeeds with the given metrics. -/
def okPkg (m : String) : cert.Pkg String :=
  { CollectMetrics := fun _ _ _ => (m, none)
    Output := fun x => x }

end CertChecks

namespace CertChecks

/-! ## Shared lemmas -/

section lemmas

variable {M : Type}

theorem newEffects_append (w w2 : World M) (es : List (Effect M))
    (h : w2.trace = w.trace ++ es) : newEffects w w2 = es := by
  simp [newEffects, h]

/-- Shape of a failed run: state, error, and the world afterwards. -/
theorem executeCheck_of_error (pkg : cert.Pkg M) (w : World M) (ev : Option Event)
    (e : GoError) (h : (fetchResult pkg w).2 = some e) :
    executeCheck pkg w ev =
      ((CheckStateCritical, none),
        { plugin := w.plugin
          now := w.now
          stdout := w.stdout ++ ("cert-checks failed with error: " ++ e.msg ++ "\n")
          trace := w.trace ++
            (Effect.collect (fetchContext w.plugin.Timeout w.now).1 w.plugin.Cert
                { ServerName := w.plugin.ServerName, Influx := w.plugin.Influx }
              :: Effect.write ("cert-checks failed with error: " ++ e.msg ++ "\n")
              :: (fetchContext w.plugin.Timeout w.now).2.map Effect.cancel) }) := by
  unfold fetchResult at h
  simp only [executeCheck, h, World.emit, World.print, World.runDeferred,
    List.append_assoc, List.singleton_append, List.cons_append, List.nil_append]

/-- Shape of a successful run: state, error, and the world afterwards. -/
theorem executeCheck_of_ok (pkg : cert.Pkg M) (w : World M) (ev : Option Event)
    (h : (fetchResult pkg w).2 = none) :
    executeCheck pkg w ev =
      ((CheckStateOK, none),
        { plugin := w.plugin
          now := w.now
          stdout := w.stdout ++ (pkg.Output (fetchResult pkg w).1 ++ "\n")
          trace := w.trace ++
            (Effect.collect (fetchContext w.plugin.Timeout w.now).1 w.plugin.Cert
                { ServerName := w.plugin.ServerName, Influx := w.plugin.Influx }
              :: Effect.output (fetchResult pkg w).1
              :: Effect.write (pkg.Output (fetchResult pkg w).1 ++ "\n")
              :: (fetchContext w.plugin.Timeout w.now).2.map Effect.cancel) }) := by
  unfold fetchResult at h
  simp only [executeCheck, h, World.emit, World.print, World.runDeferred,
    List.append_assoc, List.singleton_append, List.cons_append, List.nil_append,
    fetchResult]

theorem writes_cancel (ds : List Context) :
    writes (ds.map (Effect.cancel : Context → Effect M)) = [] := by
  induction ds with
  | nil => rfl
  | cons d ds ih => simp [writes, ih]

theorem filter_isCollect_cancel (ds : List Context) :
    (ds.map (Effect.cancel : Context → Effect M)).filter Effect.isCollect = [] := by
  induction ds with
  | nil => rfl
  | cons d ds ih => simp [Effect.isCollect, ih]

theorem wrapInt64_of_range (z : Int) (h1 : -(2 ^ 63) ≤ z) (h2 : z < 2 ^ 63) :
    wrapInt64 z = z := by
  unfold wrapInt64
  rw [Int.emod_eq_of_lt (by omega) (by omega)]
  omega

theorem wrapInt64_lt (z : Int) : wrapInt64 z < 2 ^ 63 := by
  unfold wrapInt64
  have := Int.emod_lt_of_pos (z + 2 ^ 63) (show (0 : Int) < 2 ^ 64 by norm_num)
  omega

theorem timeoutDuration_of_le (t : Nat) (h : t ≤ 9223372036) :
    timeoutDuration t = (t : Int) * 1000000000 := by
  unfold timeoutDuration durationMul Duration Second
  rw [Nat.mod_eq_of_lt (by omega), wrapInt64_of_range (t : Int) (by omega) (by omega),
    wrapInt64_of_range _ (by omega) (by omega)]
  ring

theorem fetchContext_pos (t : Nat) (now : Int) (h : 0 < t) :
    fetchContext t now =
      (Context.timerCtx Context.background (now + timeoutDuration t),
        [Context.timerCtx Context.background (now + timeoutDuration t)]) := by
  simp [fetchContext, h, WithTimeout, WithDeadline, Context.Deadline]

/-- Every run logs the fetch first: the new effects start with the call of
`cert.CollectMetrics`, and no later effect is such a call. -/
theorem executeCheck_collect (pkg : cert.Pkg M) (w : World M) (ev : Option Event) :
    ∃ rest, newEffects w (executeCheck pkg w ev).2 =
        Effect.collect (fetchContext w.plugin.Timeout w.now).1 w.plugin.Cert
          { ServerName := w.plugin.ServerName, Influx := w.plugin.Influx } :: rest ∧
      rest.filter Effect.isCollect = [] := by
  cases h : (fetchResult pkg w).2 with
  | none =>
    rw [executeCheck_of_ok pkg w ev h, newEffects_append w _ _ rfl]
    exact ⟨_, rfl, by simp [Effect.isCollect, filter_isCollect_cancel]⟩
  | some e =>
    rw [executeCheck_of_error pkg w ev e h, newEffects_append w _ _ rfl]
    exact ⟨_, rfl, by simp [Effect.isCollect, filter_isCollect_cancel]⟩

theorem executeCheck_plugin (pkg : cert.Pkg M) (w : World M) (ev : Option Event) :
    (executeCheck pkg w ev).2.plugin = w.plugin := by
  cases h : (fetchResult pkg w).2 with
  | none => rw [executeCheck_of_ok pkg w ev h]
  | some e => rw [executeCheck_of_error pkg w ev e h]

theorem checkArgs_world (w : World M) (ev : Option Event) : (checkArgs w ev).2 = w := by
  unfold checkArgs
  split <;> rfl

end lemmas

end CertChecks

namespace CertChecks

/-! ## checkArgs -/

/-- C1: `checkArgs` decides on the locator alone.  With an empty `plugin.Cert`
it returns `CheckStateCritical` with a non-nil error, with a non-empty one it
returns `(CheckStateOK, nil)`; in both cases the world afterwards is the world
before, so nothing was fetched, printed or logged. -/
theorem checkArgs_locator_alone {M : Type} (w : World M) (ev : Option Event) :
    (w.plugin.Cert = "" →
      (checkArgs w ev).1.1 = CheckStateCritical ∧ (checkArgs w ev).1.2 ≠ none) ∧
    (w.plugin.Cert ≠ "" → (checkArgs w ev).1 = (CheckStateOK, none)) ∧
    (checkArgs w ev).2 = w ∧
    newEffects w (checkArgs w ev).2 = [] := by
  by_cases h : w.plugin.Cert = ""
  · simp [checkArgs, h, newEffects]
  · simp [checkArgs, h, newEffects]

/-- Instance of C1 at an empty and at a non-empty locator. -/
theorem checkArgs_locator_alone_witness :
    ((checkArgs (sampleWorld "" 0) none).1.1 = CheckStateCritical ∧
      (checkArgs (sampleWorld "" 0) none).1.2 ≠ none) ∧
    (checkArgs (sampleWorld "tcp://127.0.0.1:443" 0) (some ⟨"e", "c"⟩)).1
      = (CheckStateOK, none) :=
  ⟨(checkArgs_locator_alone (sampleWorld "" 0) none).1 (by decide),
   (checkArgs_locator_alone (sampleWorld "tcp://127.0.0.1:443" 0)
      (some ⟨"e", "c"⟩)).2.1 (by decide)⟩

/-! ## executeCheck -/

/-- C2: every fetch failure gives the same outcome.  Whatever error
`cert.CollectMetrics` returns, `executeCheck` returns
`(CheckStateCritical, nil)`; two runs failing with any two errors, under any
configurations, return identical values. -/
theorem executeCheck_failure_uniform {M N : Type}
    (pkg : cert.Pkg M) (w : World M) (ev : Option Event) (e : GoError)
    (pkg2 : cert.Pkg N) (w2 : World N) (ev2 : Option Event) (e2 : GoError)
    (h : (fetchResult pkg w).2 = some e) (h2 : (fetchResult pkg2 w2).2 = some e2) :
    (executeCheck pkg w ev).1 = (CheckStateCritical, none) ∧
    (executeCheck pkg2 w2 ev2).1 = (executeCheck pkg w ev).1 := by
  rw [executeCheck_of_error pkg w ev e h, executeCheck_of_error pkg2 w2 ev2 e2 h2]
  exact ⟨rfl, rfl⟩

/-- Instance of C2 for two different errors and configurations. -/
theorem executeCheck_failure_uniform_witness :
    (executeCheck (failingPkg "connection refused")
        (sampleWorld "tcp://127.0.0.1:443" 0) none).1 = (CheckStateCritical, none) ∧
    (executeCheck (failingPkg "unsupported scheme ftp") (sampleWorld "ftp://host" 5) none).1
      = (executeCheck (failingPkg "connection refused")
          (sampleWorld "tcp://127.0.0.1:443" 0) none).1 :=
  executeCheck_failure_uniform (failingPkg "connection refused")
    (sampleWorld "tcp://127.0.0.1:443" 0) none
    { kind := "*net.OpError", msg := "connection refused" }
    (failingPkg "unsupported scheme ftp") (sampleWorld "ftp://host" 5) none
    { kind := "*net.OpError", msg := "unsupported scheme ftp" } rfl rfl

/-- C3: on success `executeCheck` reports OK with the rendered metrics.  When
`cert.CollectMetrics` returns `(m, nil)`, the result is `(CheckStateOK, nil)`,
standard output grows by exactly `m.Output()` and one newline, and that is the
only write of the run. -/
theorem executeCheck_success_output {M : Type}
    (pkg : cert.Pkg M) (w : World M) (ev : Option Event) (m : M)
    (h : fetchResult pkg w = (m, none)) :
    (executeCheck pkg w ev).1 = (CheckStateOK, none) ∧
    (executeCheck pkg w ev).2.stdout = w.stdout ++ (pkg.Output m ++ "\n") ∧
    writes (newEffects w (executeCheck pkg w ev).2) = [pkg.Output m ++ "\n"] := by
  have h2 : (fetchResult pkg w).2 = none := by rw [h]
  have h1 : (fetchResult pkg w).1 = m := by rw [h]
  rw [executeCheck_of_ok pkg w ev h2, h1]
  refine ⟨rfl, rfl, ?_⟩
  rw [newEffects_append w _ _ rfl]
  simp [writes, writes_cancel]

/-- Instance of C3 with metrics rendering as `days=30`. -/
theorem executeCheck_success_output_witness :
    (executeCheck (okPkg "days=30") (sampleWorld "file:///tmp/a.crt" 5) none).1
      = (CheckStateOK, none) ∧
    (executeCheck (okPkg "days=30") (sampleWorld "file:///tmp/a.crt" 5) none).2.stdout
      = (sampleWorld "file:///tmp/a.crt" 5).stdout ++ ((okPkg "days=30").Output "days=30" ++ "\n") ∧
    writes (newEffects (sampleWorld "file:///tmp/a.crt" 5)
        (executeCheck (okPkg "days=30") (sampleWorld "file:///tmp/a.crt" 5) none).2)
      = [(okPkg "days=30").Output "days=30" ++ "\n"] :=
  executeCheck_success_output (okPkg "days=30") (sampleWorld "file:///tmp/a.crt" 5) none
    "days=30" rfl

/-- C4: no partial success.  For every outcome of `cert.CollectMetrics`,
`metrics.Output()` is evaluated during the run if and only if the returned
state is `CheckStateOK`; when the fetch fails with error `e`, the whole output
of the run is the single line `cert-checks failed with error: ` followed by
`e.Error()` and a newline, and no `Output()` is evaluated. -/
theorem executeCheck_all_or_nothing {M : Type}
    (pkg : cert.Pkg M) (w : World M) (ev : Option Event) :
    ((∃ m, Effect.output m ∈ newEffects w (executeCheck pkg w ev).2) ↔
      (executeCheck pkg w ev).1.1 = CheckStateOK) ∧
    (∀ e, (fetchResult pkg w).2 = some e →
      (executeCheck pkg w ev).2.stdout
        = w.stdout ++ ("cert-checks failed with error: " ++ e.msg ++ "\n") ∧
      writes (newEffects w (executeCheck pkg w ev).2)
        = ["cert-checks failed with error: " ++ e.msg ++ "\n"] ∧
      ∀ m, Effect.output m ∉ newEffects w (executeCheck pkg w ev).2) ∧
    ((executeCheck pkg w ev).1.1 = CheckStateOK →
      writes (newEffects w (executeCheck pkg w ev).2)
        = [pkg.Output (fetchResult pkg w).1 ++ "\n"]) := by
  cases h : (fetchResult pkg w).2 with
  | none =>
    rw [executeCheck_of_ok pkg w ev h, newEffects_append w _ _ rfl]
    refine ⟨⟨fun _ => rfl, fun _ => ⟨(fetchResult pkg w).1, ?_⟩⟩, ?_, ?_⟩
    · simp
    · intro e he
      cases he
    · intro _
      simp [writes, writes_cancel]
  | some e =>
    rw [executeCheck_of_error pkg w ev e h, newEffects_append w _ _ rfl]
    refine ⟨⟨?_, ?_⟩, ?_, ?_⟩
    · rintro ⟨m, hm⟩
      simp at hm
    · intro hc
      simp [CheckStateCritical, CheckStateOK] at hc
    · intro e2 he2
      cases he2
      refine ⟨rfl, ?_, ?_⟩
      · simp [writes, writes_cancel]
      · intro m
        simp
    · intro hc
      simp [CheckStateCritical, CheckStateOK] at hc

/-- Instance of the failure half of C4 for the error `boom`. -/
theorem executeCheck_all_or_nothing_witness :
    (executeCheck (failingPkg "boom") (sampleWorld "tcp://h:1" 3) none).2.stdout
        = (sampleWorld "tcp://h:1" 3).stdout ++ ("cert-checks failed with error: " ++
            (GoError.mk "*net.OpError" "boom").msg ++ "\n") ∧
      writes (newEffects (sampleWorld "tcp://h:1" 3)
          (executeCheck (failingPkg "boom") (sampleWorld "tcp://h:1" 3) none).2)
        = ["cert-checks failed with error: " ++ (GoError.mk "*net.OpError" "boom").msg ++ "\n"] ∧
      ∀ m, Effect.output m ∉ newEffects (sampleWorld "tcp://h:1" 3)
          (executeCheck (failingPkg "boom") (sampleWorld "tcp://h:1" 3) none).2 :=
  (executeCheck_all_or_nothing (failingPkg "boom") (sampleWorld "tcp://h:1" 3) none).2.1
    (GoError.mk "*net.OpError" "boom") rfl

end CertChecks

namespace CertChecks

/-! ## States reported by the two entry points -/

/-- C5 fails as stated: the state `checkArgs` returns for an empty locator is
the state `executeCheck` returns for a failed fetch. -/
theorem config_error_state_not_distinct :
    (sampleWorld "" 0).plugin.Cert = "" ∧
    (fetchResult (failingPkg "boom") (sampleWorld "tcp://h:1" 0)).2 ≠ none ∧
    ¬ ((checkArgs (sampleWorld "" 0) none).1.1 ≠
        (executeCheck (failingPkg "boom") (sampleWorld "tcp://h:1" 0) none).1.1) := by
  decide

/-- C5, amended: for an empty locator `checkArgs` returns `CheckStateCritical`,
the very state `executeCheck` returns when the fetch fails; the two outcomes
differ in the error component only (non-nil from `checkArgs`, nil from
`executeCheck`).  Every state either function returns is `CheckStateOK` or
`CheckStateCritical`. -/
theorem config_error_state_is_critical {M N : Type}
    (w : World M) (ev : Option Event)
    (pkg : cert.Pkg N) (w2 : World N) (ev2 : Option Event) (e : GoError)
    (hc : w.plugin.Cert = "") (hf : (fetchResult pkg w2).2 = some e) :
    (checkArgs w ev).1.1 = CheckStateCritical ∧
    (executeCheck pkg w2 ev2).1.1 = CheckStateCritical ∧
    (checkArgs w ev).1.1 = (executeCheck pkg w2 ev2).1.1 ∧
    (checkArgs w ev).1.2 ≠ none ∧
    (executeCheck pkg w2 ev2).1.2 = none ∧
    (∀ (w3 : World M) (ev3 : Option Event),
      (checkArgs w3 ev3).1.1 = CheckStateOK ∨ (checkArgs w3 ev3).1.1 = CheckStateCritical) ∧
    (∀ (pkg3 : cert.Pkg N) (w3 : World N) (ev3 : Option Event),
      (executeCheck pkg3 w3 ev3).1.1 = CheckStateOK ∨
        (executeCheck pkg3 w3 ev3).1.1 = CheckStateCritical) := by
  rw [executeCheck_of_error pkg w2 ev2 e hf]
  refine ⟨by simp [checkArgs, hc], rfl, by simp [checkArgs, hc], by simp [checkArgs, hc], rfl,
    ?_, ?_⟩
  · intro w3 ev3
    by_cases h3 : w3.plugin.Cert = "" <;> simp [checkArgs, h3]
  · intro pkg3 w3 ev3
    cases h3 : (fetchResult pkg3 w3).2 with
    | none => rw [executeCheck_of_ok pkg3 w3 ev3 h3]; exact Or.inl rfl
    | some e3 => rw [executeCheck_of_error pkg3 w3 ev3 e3 h3]; exact Or.inr rfl

/-- Instance of amended C5 at an empty locator and the error `boom`. -/
theorem config_error_state_is_critical_witness :
    (checkArgs (sampleWorld "" 0) none).1.1 = CheckStateCritical ∧
    (executeCheck (failingPkg "boom") (sampleWorld "tcp://h:1" 0) none).1.1
      = CheckStateCritical :=
  have h := config_error_state_is_critical (sampleWorld "" 0) none (failingPkg "boom")
    (sampleWorld "tcp://h:1" 0) none (GoError.mk "*net.OpError" "boom") rfl rfl
  ⟨h.1, h.2.1⟩

/-- C6 fails as stated: `ftp://host` is an invalid locator, yet `checkArgs`
returns `(CheckStateOK, nil)` for it and `executeCheck` then hands it to
`cert.CollectMetrics`. -/
theorem checkArgs_accepts_unsupported_scheme :
    invalidLocator (sampleWorld "ftp://host" 0).plugin.Cert = true ∧
    (checkArgs (sampleWorld "ftp://host" 0) none).1 = (CheckStateOK, none) ∧
    (newEffects (sampleWorld "ftp://host" 0)
        (executeCheck (okPkg "m") (checkArgs (sampleWorld "ftp://host" 0) none).2 none).2).head?
      = some (Effect.collect Context.background "ftp://host"
          { ServerName := "", Influx := false }) ∧
    ¬ (∀ (w : World String) (ev : Option Event),
        invalidLocator w.plugin.Cert = true → (checkArgs w ev).1.2 ≠ none) := by
  refine ⟨by decide, by decide, rfl, ?_⟩
  intro h
  exact h (sampleWorld "ftp://host" 0) none (by decide) (by decide)

/-- C6, amended: `checkArgs` returns a non-nil error exactly when the locator
is empty.  Every non-empty locator, whatever its scheme, is accepted with
`(CheckStateOK, nil)`, and `executeCheck` then calls `cert.CollectMetrics` with
that locator. -/
theorem checkArgs_rejects_only_empty {M : Type}
    (pkg : cert.Pkg M) (w : World M) (ev : Option Event) :
    ((checkArgs w ev).1.2 ≠ none ↔ w.plugin.Cert = "") ∧
    (w.plugin.Cert ≠ "" →
      (checkArgs w ev).1 = (CheckStateOK, none) ∧
      ∃ ctx cfg, (newEffects w (executeCheck pkg (checkArgs w ev).2 ev).2).head?
        = some (Effect.collect ctx w.plugin.Cert cfg)) := by
  constructor
  · by_cases h : w.plugin.Cert = "" <;> simp [checkArgs, h]
  · intro h
    refine ⟨by simp [checkArgs, h], ?_⟩
    rw [checkArgs_world]
    obtain ⟨rest, hr, _⟩ := executeCheck_collect pkg w ev
    exact ⟨_, _, by rw [hr]; rfl⟩

/-- Instance of amended C6 at the locator `ftp://host`. -/
theorem checkArgs_rejects_only_empty_witness :
    (checkArgs (sampleWorld "ftp://host" 0) none).1 = (CheckStateOK, none) ∧
    ∃ ctx cfg, (newEffects (sampleWorld "ftp://host" 0)
        (executeCheck (okPkg "m") (checkArgs (sampleWorld "ftp://host" 0) none).2 none).2).head?
      = some (Effect.collect ctx (sampleWorld "ftp://host" 0).plugin.Cert cfg) :=
  (checkArgs_rejects_only_empty (okPkg "m") (sampleWorld "ftp://host" 0) none).2 (by decide)

end CertChecks

namespace CertChecks

/-! ## The fetch context -/

/-- Context handed to the fetch when the timeout is representable: with
`Timeout = 0` it is the background context, without deadline or cancellation;
with `0 < Timeout ≤ 9223372036` its deadline lies `Timeout` seconds after the
clock reading taken when it was created. -/
theorem fetchContext_in_range (t : Nat) (now : Int) :
    (t = 0 → (fetchContext t now).1 = Context.background ∧
      (fetchContext t now).1.Deadline = none ∧ (fetchContext t now).1.canCancel = false) ∧
    (0 < t → t ≤ 9223372036 →
      (fetchContext t now).1.Deadline = some (now + (t : Int) * Second)) := by
  constructor
  · rintro rfl
    exact ⟨rfl, rfl, rfl⟩
  · intro h0 h1
    rw [fetchContext_pos t now h0, timeoutDuration_of_le t h1]
    rfl

/-- C7 fails as stated: with `plugin.Timeout = 9223372037`, a positive timeout,
the context `executeCheck` passes to `cert.CollectMetrics` has the deadline
`now - 9223372036709551616` nanoseconds, which lies before the moment of
creation and is not `Timeout` seconds after it. -/
theorem executeCheck_deadline_not_timeout_seconds :
    0 < (sampleWorld "tcp://h:1" 9223372037).plugin.Timeout ∧
    (newEffects (sampleWorld "tcp://h:1" 9223372037)
        (executeCheck (okPkg "m") (sampleWorld "tcp://h:1" 9223372037) none).2).head?
      = some (Effect.collect
          (Context.timerCtx Context.background (1000 - 9223372036709551616))
          "tcp://h:1" { ServerName := "", Influx := false }) ∧
    (Context.timerCtx Context.background (1000 - 9223372036709551616)).Deadline
      = some ((sampleWorld "tcp://h:1" 9223372037).now - 9223372036709551616) ∧
    (Context.timerCtx Context.background (1000 - 9223372036709551616)).Deadline
      ≠ some ((sampleWorld "tcp://h:1" 9223372037).now + 9223372037 * Second) ∧
    ¬ (∀ (pkg : cert.Pkg String) (w : World String) (ev : Option Event),
        0 < w.plugin.Timeout →
        ∃ ctx cfg, (newEffects w (executeCheck pkg w ev).2).head?
            = some (Effect.collect ctx w.plugin.Cert cfg) ∧
          ctx.Deadline = some (w.now + ((w.plugin.Timeout : Nat) : Int) * Second)) := by
  have hd : timeoutDuration 9223372037 = -9223372036709551616 := by decide
  have hh : (newEffects (sampleWorld "tcp://h:1" 9223372037)
      (executeCheck (okPkg "m") (sampleWorld "tcp://h:1" 9223372037) none).2).head?
      = some (Effect.collect
          (Context.timerCtx Context.background (1000 - 9223372036709551616))
          "tcp://h:1" { ServerName := "", Influx := false }) := by
    obtain ⟨rest, hr, _⟩ :=
      executeCheck_collect (okPkg "m") (sampleWorld "tcp://h:1" 9223372037) none
    rw [hr]
    have hf : fetchContext (sampleWorld "tcp://h:1" 9223372037).plugin.Timeout
        (sampleWorld "tcp://h:1" 9223372037).now
        = (Context.timerCtx Context.background (1000 + timeoutDuration 9223372037),
            [Context.timerCtx Context.background (1000 + timeoutDuration 9223372037)]) :=
      fetchContext_pos 9223372037 1000 (by decide)
    rw [hf, hd]
    rfl
  refine ⟨by decide, hh, by decide, by decide, ?_⟩
  intro hall
  obtain ⟨ctx, cfg, hhead, hdl⟩ :=
    hall (okPkg "m") (sampleWorld "tcp://h:1" 9223372037) none (by decide)
  rw [hh] at hhead
  injection hhead with hc
  injection hc with hctx _ _
  rw [← hctx] at hdl
  revert hdl
  decide

/-- C7, amended: the fetch context carries a deadline if and only if a timeout
is configured.  With `plugin.Timeout = 0` `executeCheck` passes
`cert.CollectMetrics` the background context, without deadline or
cancellation; with `0 < plugin.Timeout ≤ 9223372036` it passes a context whose
deadline is `plugin.Timeout` seconds after the clock reading taken when it was
created. -/
theorem executeCheck_deadline_iff_timeout {M : Type}
    (pkg : cert.Pkg M) (w : World M) (ev : Option Event) :
    ∃ ctx cfg, (newEffects w (executeCheck pkg w ev).2).head?
        = some (Effect.collect ctx w.plugin.Cert cfg) ∧
      (ctx.Deadline ≠ none ↔ 0 < w.plugin.Timeout) ∧
      (w.plugin.Timeout = 0 →
        ctx = Context.background ∧ ctx.Deadline = none ∧ ctx.canCancel = false) ∧
      (0 < w.plugin.Timeout → w.plugin.Timeout ≤ 9223372036 →
        ctx.Deadline = some (w.now + ((w.plugin.Timeout : Nat) : Int) * Second)) := by
  obtain ⟨rest, hr, _⟩ := executeCheck_collect pkg w ev
  refine ⟨(fetchContext w.plugin.Timeout w.now).1,
    { ServerName := w.plugin.ServerName, Influx := w.plugin.Influx }, by rw [hr]; rfl, ?_,
    (fetchContext_in_range w.plugin.Timeout w.now).1,
    (fetchContext_in_range w.plugin.Timeout w.now).2⟩
  rcases Nat.eq_zero_or_pos w.plugin.Timeout with h0 | hpos
  · rw [h0]
    simp [fetchContext, Context.Deadline]
  · rw [fetchContext_pos _ _ hpos]
    simp [Context.Deadline, hpos]

/-- Instance of amended C7 at a timeout of five seconds. -/
theorem executeCheck_deadline_iff_timeout_witness :
    ∃ ctx cfg, (newEffects (sampleWorld "tcp://h:1" 5)
        (executeCheck (okPkg "m") (sampleWorld "tcp://h:1" 5) none).2).head?
        = some (Effect.collect ctx (sampleWorld "tcp://h:1" 5).plugin.Cert cfg) ∧
      ctx.Deadline = some ((sampleWorld "tcp://h:1" 5).now + ((5 : Nat) : Int) * Second) :=
  match executeCheck_deadline_iff_timeout (okPkg "m") (sampleWorld "tcp://h:1" 5) none with
  | ⟨ctx, cfg, h1, _, _, h4⟩ => ⟨ctx, cfg, h1, h4 (by decide) (by decide)⟩

/-! ## Frame and call count -/

/-- C8: the configuration reaches the fetch unaltered and is never mutated.
The only call of `cert.CollectMetrics` in a run of `executeCheck` has the
locator `plugin.Cert` and a `cert.Config` with `ServerName = plugin.ServerName`
and `Influx = plugin.Influx`; after `checkArgs`, after `executeCheck`, and
after one following the other, `plugin` (hence each of its fields `Cert`,
`ServerName`, `Influx`, `Timeout`, `Name`, `Short`, `Keyspace`) is what it was,
on the success and on the failure path alike. -/
theorem plugin_config_unaltered {M : Type}
    (pkg : cert.Pkg M) (w : World M) (ev : Option Event) :
    (∃ ctx cfg, (newEffects w (executeCheck pkg w ev).2).filter Effect.isCollect
        = [Effect.collect ctx w.plugin.Cert cfg] ∧
      cfg.ServerName = w.plugin.ServerName ∧ cfg.Influx = w.plugin.Influx) ∧
    (checkArgs w ev).2.plugin = w.plugin ∧
    (executeCheck pkg w ev).2.plugin = w.plugin ∧
    (executeCheck pkg (checkArgs w ev).2 ev).2.plugin = w.plugin ∧
    ((executeCheck pkg w ev).2.plugin.Cert = w.plugin.Cert ∧
      (executeCheck pkg w ev).2.plugin.ServerName = w.plugin.ServerName ∧
      (executeCheck pkg w ev).2.plugin.Influx = w.plugin.Influx ∧
      (executeCheck pkg w ev).2.plugin.Timeout = w.plugin.Timeout ∧
      (executeCheck pkg w ev).2.plugin.Name = w.plugin.Name ∧
      (executeCheck pkg w ev).2.plugin.Short = w.plugin.Short ∧
      (executeCheck pkg w ev).2.plugin.Keyspace = w.plugin.Keyspace) := by
  refine ⟨?_, ?_, executeCheck_plugin pkg w ev, ?_, ?_⟩
  · obtain ⟨rest, hr, hf⟩ := executeCheck_collect pkg w ev
    refine ⟨(fetchContext w.plugin.Timeout w.now).1,
      { ServerName := w.plugin.ServerName, Influx := w.plugin.Influx }, ?_, rfl, rfl⟩
    rw [hr, List.filter_cons_of_pos (by rfl), hf]
  · rw [checkArgs_world]
  · rw [checkArgs_world, executeCheck_plugin]
  · rw [executeCheck_plugin]
    exact ⟨rfl, rfl, rfl, rfl, rfl, rfl, rfl⟩

/-- C9: one attempt per invocation.  Whatever the configuration and whatever
the fetch returns, a run of `executeCheck` calls `cert.CollectMetrics` exactly
once; a failed fetch is not followed by a second call. -/
theorem executeCheck_single_attempt {M : Type}
    (pkg : cert.Pkg M) (w : World M) (ev : Option Event) :
    ((newEffects w (executeCheck pkg w ev).2).filter Effect.isCollect).length = 1 := by
  obtain ⟨rest, hr, hf⟩ := executeCheck_collect pkg w ev
  rw [hr, List.filter_cons_of_pos (by rfl), hf]
  rfl

/-! ## Timeout arithmetic -/

/-- C10: `time.Second * time.Duration(plugin.Timeout)` in wrapping signed
64-bit arithmetic is exact precisely up to `9223372036`.  For
`0 < Timeout ≤ 9223372036` it is `Timeout * 1000000000` nanoseconds and
positive; for every larger `uint64` it differs from that product; at
`9223372037` the product exceeds `2^63 - 1` and the result is negative, so the
deadline built from it lies before the moment of creation. -/
theorem timeoutDuration_exact_up_to_bound :
    (∀ t : Nat, 0 < t → t ≤ 9223372036 →
      timeoutDuration t = (t : Int) * 1000000000 ∧ 0 < timeoutDuration t) ∧
    (∀ t : Nat, 9223372036 < t → t < 2 ^ 64 →
      timeoutDuration t ≠ (t : Int) * 1000000000) ∧
    ((2 : Int) ^ 63 - 1 < 9223372037 * 1000000000 ∧ timeoutDuration 9223372037 < 0) ∧
    (∀ now : Int, ∃ d, (fetchContext 9223372037 now).1.Deadline = some d ∧ d < now) := by
  refine ⟨?_, ?_, ⟨by norm_num, by decide⟩, ?_⟩
  · intro t h0 h1
    rw [timeoutDuration_of_le t h1]
    exact ⟨rfl, by omega⟩
  · intro t h0 _ heq
    have hlt := wrapInt64_lt (Second * Duration t)
    unfold timeoutDuration durationMul at heq
    rw [heq] at hlt
    omega
  · intro now
    refine ⟨now + timeoutDuration 9223372037, ?_, ?_⟩
    · rw [fetchContext_pos _ _ (by decide)]
      rfl
    · have hd : timeoutDuration 9223372037 < 0 := by decide
      omega

/-- Instance of C10 at a timeout of five seconds. -/
theorem timeoutDuration_exact_up_to_bound_witness :
    timeoutDuration 5 = ((5 : Nat) : Int) * 1000000000 ∧ 0 < timeoutDuration 5 :=
  timeoutDuration_exact_up_to_bound.1 5 (by decide) (by decide)

end CertChecks
